import Mathlib

/-!
Verification of the FloatingDictionaryLinux translation pipeline.

This file gives a shallow embedding of the pure logic of the repository:

* `src/translation.rs` — text classification (`is_single_word`), the
  translation orchestrator (`translate_text`), the machine-translation
  response parser (`google_translate_with_source_detection`, modelled here
  as `parseGoogleResponse` over an explicit JSON value), and the dictionary
  HTML parser (`parse_longdo_html` and its helpers) over an explicit DOM
  tree.
* `src/ocr.rs` — the capture-and-OCR pipeline (`capture_and_ocr`,
  `capture_kde`, `capture_portal`), modelled as a deterministic function of
  an environment describing the outcomes of the external interactions,
  paired with a trace of the externally visible actions it attempts.

Network fetches, the DBus transport, the subprocess and the OCR engine are
external collaborators; their outcomes enter the model as parameters, and
the Rust code operating on those outcomes is translated directly.
-/

namespace FloatingDict

/-! ## Character and string primitives

Rust's `char::is_whitespace` tests the Unicode `White_Space` property; the
regex class `\s` in the `regex` crate denotes the same set.  `str::trim`
strips such characters from both ends, and `str::len` is the UTF-8 byte
length, which `utf8Len` computes via `Char.utf8Size`.
-/

def rustWhitespace (c : Char) : Bool :=
  let n := c.toNat
  n == 0x09 || n == 0x0A || n == 0x0B || n == 0x0C || n == 0x0D ||
  n == 0x20 || n == 0x85 || n == 0xA0 || n == 0x1680 ||
  (Nat.ble 0x2000 n && Nat.ble n 0x200A) ||
  n == 0x2028 || n == 0x2029 || n == 0x202F || n == 0x205F || n == 0x3000

def trimChars (cs : List Char) : List Char :=
  ((cs.dropWhile rustWhitespace).reverse.dropWhile rustWhitespace).reverse

/-- Model of Rust `str::trim`. -/
def trimS (s : String) : String :=
  String.mk (trimChars s.data)

def utf8Len (cs : List Char) : Nat :=
  (cs.map Char.utf8Size).sum

/-- Model of Rust `str::contains(&str)`: substring search. -/
def substrB (needle hay : String) : Bool :=
  go needle.data hay.data
where
  go (n : List Char) (h : List Char) : Bool :=
    if n.isPrefixOf h then true
    else match h with
      | [] => false
      | _ :: t => go n t

/-- Model of Rust `str::to_uppercase` restricted to ASCII letters (the only
inputs it receives in this code base are ASCII language codes and desktop
names). -/
def upperStr (s : String) : String :=
  String.mk (s.data.map Char.toUpper)

/-! ## Text classification (`is_single_word`, src/translation.rs lines 38-41)

```rust
pub fn is_single_word(text: &str) -> bool {
    let trimmed = text.trim();
    !trimmed.contains(char::is_whitespace) && trimmed.len() < 50
}
```
-/

def is_single_word (text : String) : Bool :=
  let trimmed := trimChars text.data
  !(trimmed.any rustWhitespace) && decide (utf8Len trimmed < 50)

/-! ## Definition parsing (`parse_definition`, src/translation.rs lines 199-215)

The Rust code applies two regular expressions:

* `^\s*\((.*?)\)\s*(.*)` — a leading parenthesized group: optional leading
  whitespace, `(`, a lazy capture of non-newline characters up to the first
  `)`, the `)`, greedy whitespace, then the remainder of the line (`.`
  never matches a newline).
* `^(?i)(pron|adj|det|n|v|adv|int|conj)\.?\s*(.*)` — an inline
  part-of-speech abbreviation at the start of the remainder, case
  insensitively (all alternatives are ASCII), an optional period, greedy
  whitespace, then the remainder of the line.

Both are embedded as total recursive functions on the character list.
-/

/-- Lazy scan for `(.*?)\)`: the characters strictly before the first `)`,
and the characters after it; fails when a newline appears first (regex `.`
does not match `\n`) or when no `)` exists. -/
def splitAtParen : List Char → Option (List Char × List Char)
  | [] => none
  | c :: t =>
    if c = ')' then some ([], t)
    else if c = '\n' then none
    else (splitAtParen t).map (fun p => (c :: p.1, p.2))

/-- Match of `^\s*\((.*?)\)\s*(.*)` returning the two capture groups. -/
def parenMatch (s : String) : Option (String × String) :=
  match s.data.dropWhile rustWhitespace with
  | '(' :: t =>
    (splitAtParen t).map fun p =>
      (String.mk p.1,
       String.mk ((p.2.dropWhile rustWhitespace).takeWhile (fun c => !(c = '\n'))))
  | _ => none

/-- Case-insensitive literal prefix strip (ASCII folding, as all the
alternation literals are ASCII). -/
def dropPrefixCI : List Char → List Char → Option (List Char)
  | [], cs => some cs
  | _ :: _, [] => none
  | p :: ps, c :: cs => if c.toLower = p.toLower then dropPrefixCI ps cs else none

/-- Alternation literals of the inline part-of-speech pattern, in order. -/
def posAbbrevs : List String := ["pron", "adj", "det", "n", "v", "adv", "int", "conj"]

/-- Match of `^(?i)(pron|adj|det|n|v|adv|int|conj)\.?\s*(.*)`: group 1 is
the matched text in its original case, group 2 the rest of the line. -/
def posMatch (s : String) : Option (String × String) :=
  posAbbrevs.findSome? fun a =>
    (dropPrefixCI a.data s.data).map fun rest =>
      let matched := String.mk (s.data.take a.length)
      let rest2 := match rest with
        | '.' :: t => t
        | _ => rest
      (matched, String.mk ((rest2.dropWhile rustWhitespace).takeWhile (fun c => !(c = '\n'))))

/-- Model of `parse_definition` (src/translation.rs lines 199-215). -/
def parse_definition (definition : String) : String × String :=
  match parenMatch definition with
  | some (g1, g2) =>
    let pos := trimS g1
    let translationText := trimS g2
    match posMatch translationText with
    | some (extractedPos, rest) => (extractedPos, trimS rest)
    | none => (pos, translationText)
  | none => ("N/A", definition)

/-! ## Data structures (src/translation.rs lines 7-34) -/

structure TranslationItem where
  word : String
  pos : String
  translation : String
  dictionary : String
deriving DecidableEq

structure ExampleItem where
  en : String
  th : String
deriving DecidableEq

structure LongdoData where
  translations : List TranslationItem
  examples : List ExampleItem
deriving DecidableEq

structure CombinedTranslationData where
  search_word : String
  source_lang : String
  target_lang : String
  google_translation : String
  longdo_data : Option LongdoData
deriving DecidableEq

/-! ## The translation orchestrator (`translate_text`, src/translation.rs lines 45-73)

```rust
let search_word = text.trim().to_string();
let (google_translation, detected_source_lang) =
    google_translate_with_source_detection(&search_word, target, source).await?;
let mut longdo_data: Option<LongdoData> = None;
if is_single_word(&search_word) && detected_source_lang == "en" && target == "th" {
    longdo_data = fetch_longdo_translation(&search_word).await.ok();
}
Ok(CombinedTranslationData { search_word, source_lang: detected_source_lang.to_uppercase(),
    target_lang: target.to_uppercase(), google_translation, longdo_data })
```

The two network fetches are external; their outcomes are passed in as the
`googleResult` and `longdoResult` parameters (`longdoResult` stands for
what `fetch_longdo_translation` would return when invoked).  The `?` on the
Google call and the `.ok()` on the dictionary call are translated exactly.
-/

def translate_text (text _source target : String)
    (googleResult : Except String (String × String))
    (longdoResult : Except String LongdoData) :
    Except String CombinedTranslationData :=
  let search_word := trimS text
  match googleResult with
  | .error e => .error e
  | .ok (google_translation, detected_source_lang) =>
    let longdo_data : Option LongdoData :=
      if is_single_word search_word = true ∧ detected_source_lang = "en" ∧ target = "th" then
        longdoResult.toOption
      else none
    .ok { search_word := search_word
          source_lang := upperStr detected_source_lang
          target_lang := upperStr target
          google_translation := google_translation
          longdo_data := longdo_data }

/-! ## Machine-translation response parsing
(`google_translate_with_source_detection`, src/translation.rs lines 77-114)

The HTTP request and body download are external; the JSON document the code
receives is modelled by `Json`, and the extraction logic of lines 94-111 is
`parseGoogleResponse`.  `Value::get(index)` on a non-array or out-of-range
index yields nothing, exactly as `Json.getIdx`.
-/

inductive Json where
  | null
  | bool (b : Bool)
  | num (n : Int)
  | str (s : String)
  | arr (items : List Json)
  | obj (fields : List (String × Json))

def Json.getIdx : Json → Nat → Option Json
  | .arr items, i => items.get? i
  | _, _ => none

def Json.asArr : Json → Option (List Json)
  | .arr items => some items
  | _ => none

def Json.asStr : Json → Option String
  | .str s => some s
  | _ => none

/-- Extraction of `(translation, detected_lang)` from the decoded JSON
response (src/translation.rs lines 94-111): the translated text is built by
appending the first element of every item of the first top-level array,
silently skipping items without a string first element; the detected
language is the third top-level element, which must be a string. -/
def googleChunk (acc : String) (item : Json) : String :=
  match (item.getIdx 0).bind Json.asStr with
  | some textPart => acc ++ textPart
  | none => acc

def parseGoogleResponse (json : Json) : Except String (String × String) :=
  match (json.getIdx 0).bind Json.asArr with
  | none => .error "Failed to parse Google Translate translation"
  | some translations =>
    let translation := translations.foldl googleChunk ""
    match (json.getIdx 2).bind Json.asStr with
    | none => .error "Failed to parse detected source language from Google"
    | some detectedLang => .ok (translation, detectedLang)

/-! ## Dictionary HTML parsing (src/translation.rs lines 137-254)

`Html::parse_document` (an external lenient HTML5 parser) produces a DOM
tree; the parsing logic of `parse_longdo_html` and its helpers operates on
that tree, modelled by `HtmlNode`.  `ElementRef::text()` concatenates the
text descendants in document order (`nodeText`); a CSS tag selector yields
the descendant elements with that tag in document order (`selectDesc`);
`next_sibling` chains are the remainders of the parent's child list
(`bSiblingsList` pairs every `b` element with its following siblings).
-/

inductive HtmlNode where
  | text (s : String)
  | elem (tag : String) (attrs : List (String × String)) (children : List HtmlNode)

def lookupAttr : List (String × String) → String → Option String
  | [], _ => none
  | (k, v) :: rest, name => if k = name then some v else lookupAttr rest name

mutual
def nodeText : HtmlNode → String
  | .text s => s
  | .elem _ _ cs => nodeTextList cs
def nodeTextList : List HtmlNode → String
  | [] => ""
  | n :: rest => nodeText n ++ nodeTextList rest
end

def isTag (t : String) : HtmlNode → Bool
  | .elem tag _ _ => tag == t
  | .text _ => false

mutual
def selectDesc (p : HtmlNode → Bool) : HtmlNode → List HtmlNode
  | .text _ => []
  | .elem _ _ cs => selectDescList p cs
def selectDescList (p : HtmlNode → Bool) : List HtmlNode → List HtmlNode
  | [] => []
  | n :: rest => (if p n then [n] else []) ++ selectDesc p n ++ selectDescList p rest
end

mutual
def bSiblings : HtmlNode → List (HtmlNode × List HtmlNode)
  | .text _ => []
  | .elem _ _ cs => bSiblingsList cs
def bSiblingsList : List HtmlNode → List (HtmlNode × List HtmlNode)
  | [] => []
  | n :: rest => (if isTag "b" n then [(n, rest)] else []) ++ bSiblings n ++ bSiblingsList rest
end

/-- Test performed while walking the sibling chain: an element named
`table` whose `class` attribute contains `"result-table"`. -/
def isResultTable : HtmlNode → Bool
  | .elem tag attrs _ =>
    tag == "table" &&
      (match lookupAttr attrs "class" with
       | some c => substrB "result-table" c
       | none => false)
  | .text _ => false

/-- Sibling walk of the `while let Some(node) = next` loops: the first
following sibling that is a `result-table` table, skipping everything
else. -/
def findResultTable (sibs : List HtmlNode) : Option HtmlNode :=
  sibs.find? isResultTable

/-- Text content of the `td` cells of a row. -/
def tdTexts (row : HtmlNode) : List String :=
  (selectDesc (isTag "td") row).map nodeText

/-- Body of the row loop of `parse_translation_table`
(src/translation.rs lines 180-195), at the level of the extracted cell
texts: rows whose cell count is not exactly two, or whose trimmed word or
trimmed definition is empty, are discarded. -/
def rowItemCells (dictName : String) (cells : List String) : Option TranslationItem :=
  match cells with
  | [c0, c1] =>
    let word := trimS c0
    let definition := trimS c1
    if word ≠ "" ∧ definition ≠ "" then
      let pd := parse_definition definition
      some { word := word, pos := pd.1, translation := pd.2, dictionary := dictName }
    else none
  | _ => none

def rowItem (dictName : String) (row : HtmlNode) : Option TranslationItem :=
  rowItemCells dictName (tdTexts row)

/-- Model of `parse_translation_table` (src/translation.rs lines 176-197). -/
def parse_translation_table (dictName : String) (table : HtmlNode) : List TranslationItem :=
  (selectDesc (isTag "tr") table).filterMap (rowItem dictName)

def targetDicts : List String :=
  ["NECTEC Lexitron Dictionary EN-TH", "Nontri Dictionary", "Hope Dictionary"]

/-- Translation extraction of `parse_longdo_html` (src/translation.rs lines
148-169): for each dictionary name in priority order, every `b`
element whose text contains the name contributes the rows of the first
`result-table` among its following siblings (nothing when there is none). -/
def translationsOf (doc : List HtmlNode) : List TranslationItem :=
  targetDicts.flatMap fun dictName =>
    (bSiblingsList doc).flatMap fun bs =>
      if substrB dictName (nodeText bs.1) then
        match findResultTable bs.2 with
        | some t => parse_translation_table dictName t
        | none => []
      else []

def exampleAnchor : String := "ตัวอย่างประโยค"

def fontBlack : HtmlNode → Bool
  | .elem tag attrs _ => tag == "font" && (lookupAttr attrs "color" == some "black")
  | .text _ => false

/-- Body of the row loop of `parse_example_table` (src/translation.rs lines
244-253): a row contributes a pair exactly when it has exactly two
`font[color='black']` descendants and both trimmed texts are non-empty. -/
def exampleRow (row : HtmlNode) : Option ExampleItem :=
  match (selectDesc fontBlack row).map nodeText with
  | [e0, e1] =>
    let en := trimS e0
    let th := trimS e1
    if en ≠ "" ∧ th ≠ "" then some { en := en, th := th } else none
  | _ => none

/-- Model of `parse_example_table` (src/translation.rs lines 240-254). -/
def parse_example_table (table : HtmlNode) : List ExampleItem :=
  (selectDesc (isTag "tr") table).filterMap exampleRow

/-- Model of `parse_examples` (src/translation.rs lines 217-238): the first
`b` element whose text contains the anchor phrase and that has a
`result-table` sibling contributes its rows; the function returns
immediately after it. -/
def examplesOf (doc : List HtmlNode) : List ExampleItem :=
  match (bSiblingsList doc).findSome? (fun bs =>
      if substrB exampleAnchor (nodeText bs.1) then
        (findResultTable bs.2).map parse_example_table
      else none) with
  | some es => es
  | none => []

def longdoDataOf (doc : List HtmlNode) : LongdoData :=
  { translations := translationsOf doc, examples := examplesOf doc }

/-- Model of `parse_longdo_html` (src/translation.rs lines 137-174): the
Rust function builds `data` mutably and unconditionally returns
`Ok(data)`. -/
def parse_longdo_html (doc : List HtmlNode) : Except String LongdoData :=
  .ok (longdoDataOf doc)

/-! ## Capture and OCR (src/ocr.rs)

`capture_and_ocr` talks to external collaborators: the `XDG_CURRENT_DESKTOP`
environment variable, the Spectacle subprocess, the DBus screenshot portal,
the file system and the Tesseract OCR engine.  Their outcomes are collected
in `OcrEnv`, and every function returns, next to its result, the trace of
externally visible actions it attempted, in order.  No network request is
ever issued by this module, so `CaptureEvent.networkRequest` never occurs
in a trace; it is included so that its absence is expressible.
-/

inductive CaptureEvent where
  | subprocessRun
  | dbusScreenshotCall
  | fsRead
  | ocrInvoke
  | networkRequest
deriving DecidableEq

structure OcrEnv where
  /-- Value of `XDG_CURRENT_DESKTOP` (empty when unset). -/
  xdgCurrentDesktop : String
  /-- Whether the `spectacle` subprocess exited with status 0. -/
  spectacleExitSuccess : Bool
  /-- The `(response_code, results)` status of the portal `Response` signal. -/
  portalResponseCode : Nat
  /-- The `uri` entry of the portal results map, when present and a string. -/
  portalUri : Option String
  /-- Outcome of `fs::read` on the screenshot file. -/
  fileRead : Option (List Nat)
  /-- Outcome of the Tesseract invocation on the image bytes. -/
  tesseractText : Option String

/-- Model of `capture_kde` (src/ocr.rs lines 43-69).  The random temporary
file name is abstracted to a fixed one; a non-zero Spectacle exit status is
reported as cancellation. -/
def capture_kde (env : OcrEnv) : Except String String × List CaptureEvent :=
  let tempPath := "/tmp/capture_tmp.png"
  if env.spectacleExitSuccess then
    (.ok tempPath, [.subprocessRun])
  else
    (.error "Screenshot cancelled by user.", [.subprocessRun])

def hexDigit (c : Char) : Option Nat :=
  if '0' ≤ c ∧ c ≤ '9' then some (c.toNat - '0'.toNat)
  else if 'a' ≤ c ∧ c ≤ 'f' then some (c.toNat - 'a'.toNat + 10)
  else if 'A' ≤ c ∧ c ≤ 'F' then some (c.toNat - 'A'.toNat + 10)
  else none

/-- Percent decoding (the `urlencoding::decode` call), at scalar-value
level: `%XX` hex escapes are replaced, everything else is kept. -/
def percentDecode : List Char → List Char
  | '%' :: a :: b :: rest =>
    match hexDigit a, hexDigit b with
    | some x, some y => Char.ofNat (16 * x + y) :: percentDecode rest
    | _, _ => '%' :: percentDecode (a :: b :: rest)
  | c :: rest => c :: percentDecode rest
  | [] => []
termination_by cs => cs.length

/-- Model of `capture_portal` (src/ocr.rs lines 74-143).  The connection,
token generation and proxy setup are infallible in the model; the decoded
`Response` signal payload comes from the environment.  A non-zero response
code is reported as cancellation before the URI is even looked at. -/
def capture_portal (env : OcrEnv) : Except String String × List CaptureEvent :=
  let events := [CaptureEvent.dbusScreenshotCall]
  if env.portalResponseCode ≠ 0 then
    (.error "Portal request failed or was cancelled by user.", events)
  else
    match env.portalUri with
    | none => (.error "Portal response did not contain a URI.", events)
    | some uri =>
      if "file://".data.isPrefixOf uri.data then
        (.ok (String.mk (percentDecode (uri.data.drop 7))), events)
      else
        (.error "URI was not a file URI.", events)

/-- Model of `capture_and_ocr` (src/ocr.rs lines 14-39): desktop detection,
capture, file read and removal, then OCR.  The OCR engine is attempted
(event `ocrInvoke`) only after a successful capture and file read. -/
def capture_and_ocr (env : OcrEnv) : Except String String × List CaptureEvent :=
  let captured :=
    if substrB "KDE" (upperStr env.xdgCurrentDesktop) then capture_kde env
    else capture_portal env
  match captured with
  | (.error e, events) => (.error e, events)
  | (.ok _imagePath, events) =>
    let events := events ++ [CaptureEvent.fsRead]
    match env.fileRead with
    | none => (.error "failed to read the screenshot file", events)
    | some _imageData =>
      let events := events ++ [CaptureEvent.ocrInvoke]
      match env.tesseractText with
      | none => (.error "OCR engine failure", events)
      | some ocrText => (.ok ocrText, events)

/-! ## Helper lemmas -/

theorem dropWhile_ws_eq_self (l : List Char)
    (h : ∀ c ∈ l, rustWhitespace c = false) :
    l.dropWhile rustWhitespace = l := by
  cases l with
  | nil => rfl
  | cons c t => simp [List.dropWhile, h c (by simp)]

theorem trimChars_eq_self (l : List Char)
    (h : ∀ c ∈ l, rustWhitespace c = false) :
    trimChars l = l := by
  unfold trimChars
  rw [dropWhile_ws_eq_self l h,
      dropWhile_ws_eq_self l.reverse (fun c hc => h c (List.mem_reverse.mp hc)),
      List.reverse_reverse]

theorem flatMap_eq_nil {α β : Type} (l : List α) (f : α → List β)
    (h : ∀ x ∈ l, f x = []) : l.flatMap f = [] := by
  induction l with
  | nil => rfl
  | cons a t ih =>
    simp only [List.flatMap_cons, h a (by simp), List.nil_append]
    exact ih (fun x hx => h x (by simp [hx]))

theorem findSome?_eq_none {α β : Type} (l : List α) (f : α → Option β)
    (h : ∀ x ∈ l, f x = none) : l.findSome? f = none := by
  induction l with
  | nil => rfl
  | cons a t ih =>
    rw [List.findSome?_cons, h a (by simp)]
    exact ih (fun x hx => h x (by simp [hx]))

/-! ## Claim C3 — single-word classification -/

/-- C3 counterexample: the string `" a"` contains whitespace, so the claim
classifies it `Phrase`, yet `is_single_word` trims before testing and
returns `true` (`Word`). -/
theorem single_word_counterexample :
    (" a" : String).data.any rustWhitespace = true ∧ is_single_word " a" = true := by
  decide

/-- C3 (amended): classification applies to the trimmed text — the
classifier returns `Word` exactly when the trimmed text contains no
whitespace and its UTF-8 byte length is below 50.  In particular every
whitespace-free string of byte length below 50 is classified `Word`, a
49-byte whitespace-free string is `Word` and a 50-byte one is `Phrase`. -/
theorem single_word_classification :
    (∀ s : String, (∀ c ∈ s.data, rustWhitespace c = false) →
        utf8Len s.data < 50 → is_single_word s = true) ∧
    (∀ s : String, is_single_word s = true ↔
        ((trimChars s.data).any rustWhitespace = false ∧ utf8Len (trimChars s.data) < 50)) ∧
    is_single_word (String.mk (List.replicate 49 'a')) = true ∧
    is_single_word (String.mk (List.replicate 50 'a')) = false := by
  refine ⟨?_, ?_, by decide, by decide⟩
  · intro s hws hlen
    simp only [is_single_word, trimChars_eq_self s.data hws, Bool.and_eq_true,
      Bool.not_eq_true', decide_eq_true_eq]
    exact ⟨by simp [List.any_eq_false]; exact fun c hc => by simp [hws c hc], hlen⟩
  · intro s
    simp [is_single_word, Bool.and_eq_true, Bool.not_eq_true', decide_eq_true_eq]

/-- C3 witness: a concrete whitespace-free short string is classified
`Word` via the amended theorem. -/
theorem single_word_classification_witness :
    (∀ c ∈ ("abc" : String).data, rustWhitespace c = false) ∧
    utf8Len ("abc" : String).data < 50 ∧ is_single_word "abc" = true :=
  ⟨by decide, by decide, single_word_classification.1 "abc" (by decide) (by decide)⟩

/-! ## Claim C9 — byte-length semantics of the classification -/

/-- Concrete Thai input: seventeen copies of the letter ko kai, each of
which occupies three bytes in UTF-8. -/
def thaiSample : String := String.mk (List.replicate 17 'ก')

/-- C9: the length bound of `is_single_word` counts UTF-8 bytes, not
characters — a whitespace-free 17-character Thai string occupies 51 bytes,
is classified `Phrase`, and therefore the orchestrator never attaches
dictionary data for it, whatever the other inputs are. -/
theorem byte_length_classification :
    thaiSample.data.length = 17 ∧
    thaiSample.data.any rustWhitespace = false ∧
    utf8Len thaiSample.data = 51 ∧
    is_single_word thaiSample = false ∧
    ∀ (source target gt det : String) (l : Except String LongdoData),
      translate_text thaiSample source target (.ok (gt, det)) l =
        .ok { search_word := trimS thaiSample, source_lang := upperStr det,
              target_lang := upperStr target, google_translation := gt,
              longdo_data := none } := by
  refine ⟨by decide, by decide, by decide, by decide, ?_⟩
  intro source target gt det l
  have h : ¬ (is_single_word (trimS thaiSample) = true ∧ det = "en" ∧ target = "th") := by
    intro hc
    exact absurd hc.1 (by decide)
  simp [translate_text, h]

/-! ## Claim C1 — dictionary gating -/

/-- C1 counterexample: with all three gating conditions satisfied but a
failing dictionary fetch, the result carries no dictionary data, so
presence of dictionary data is not equivalent to the three gating
conditions alone. -/
theorem dictionary_gating_counterexample :
    is_single_word (trimS "hello") = true ∧
    translate_text "hello" "auto" "th" (.ok ("x", "en")) (.error "timeout") =
      .ok { search_word := "hello", source_lang := "EN", target_lang := "TH",
            google_translation := "x", longdo_data := none } :=
  ⟨by decide, rfl⟩

/-- C1 (amended): when the machine-translation call succeeds, the result
carries dictionary data exactly when the trimmed text is classified a
single word, the detected source language is `"en"`, the target language is
`"th"`, AND the dictionary fetch itself succeeded.  In particular the three
gating conditions are necessary (the `only if` direction of the claim). -/
theorem dictionary_gating (text source target gt det : String)
    (l : Except String LongdoData) (cd : CombinedTranslationData)
    (h : translate_text text source target (.ok (gt, det)) l = .ok cd) :
    cd.longdo_data.isSome = true ↔
      (is_single_word (trimS text) = true ∧ det = "en" ∧ target = "th" ∧
       l.toOption.isSome = true) := by
  simp only [translate_text, Except.ok.injEq] at h
  subst h
  by_cases hc : is_single_word (trimS text) = true ∧ det = "en" ∧ target = "th"
  · simp [hc]
  · simp only [if_neg hc, Option.isSome_none]
    constructor
    · intro hfalse; cases hfalse
    · rintro ⟨h1, h2, h3, _⟩; exact absurd ⟨h1, h2, h3⟩ hc

/-- C1 witness: concrete successful run through `dictionary_gating`. -/
theorem dictionary_gating_witness :
    ({ search_word := "hello", source_lang := "EN", target_lang := "TH",
       google_translation := "x",
       longdo_data := some { translations := [], examples := [] } } :
      CombinedTranslationData).longdo_data.isSome = true ↔
      (is_single_word (trimS "hello") = true ∧ ("en" : String) = "en" ∧
       ("th" : String) = "th" ∧
       (Except.ok { translations := [], examples := [] } :
          Except String LongdoData).toOption.isSome = true) :=
  dictionary_gating "hello" "auto" "th" "x" "en" _ _ rfl

/-! ## Claim C2 — orchestrator error handling -/

/-- C2 counterexample: a failing machine-translation fetch propagates as an
error out of `translate_text`, so the orchestrator does fail outward. -/
theorem orchestrator_error_counterexample :
    translate_text "hello" "auto" "th" (.error "connection refused")
      (.ok { translations := [], examples := [] }) = .error "connection refused" := rfl

/-- C2 (amended): once the machine-translation call succeeds,
`translate_text` always returns a displayable `CombinedTranslationData`; a
failing dictionary fetch is degraded into an absent `longdo_data`.  A
failing machine-translation fetch, however, is propagated verbatim to the
caller as an error. -/
theorem orchestrator_error_handling :
    (∀ (text source target : String) (p : String × String) (l : Except String LongdoData),
       (translate_text text source target (.ok p) l).isOk = true) ∧
    (∀ (text source target e : String) (l : Except String LongdoData),
       translate_text text source target (.error e) l = .error e) ∧
    (∀ (text source target gt det e : String), ∃ cd,
       translate_text text source target (.ok (gt, det)) (.error e) = .ok cd ∧
       cd.longdo_data = none) := by
  refine ⟨fun text source target p l => rfl, fun text source target e l => rfl, ?_⟩
  intro text source target gt det e
  refine ⟨_, rfl, ?_⟩
  simp [translate_text, Except.toOption]

theorem takeWhile_eq_self {α : Type} (p : α → Bool) (l : List α)
    (h : ∀ c ∈ l, p c = true) : l.takeWhile p = l := by
  induction l with
  | nil => rfl
  | cons c t ih =>
    have hc := h c (by simp)
    have ht := ih (fun x hx => h x (by simp [hx]))
    simp [List.takeWhile, hc, ht]

/-! ## Claim C4 — definition-parsing test vectors -/

/-- C4: the three specification test vectors of `parse_definition`: a
parenthesized part of speech whose body does not carry an inline tag keeps
the parenthesized tag and the body; and a definition without a leading
parenthetical is returned verbatim with the `"N/A"` sentinel. -/
theorem parse_definition_vectors :
    parse_definition "(n) your self" = ("n", "your self") ∧
    parse_definition "(pron) hello there" = ("pron", "hello there") ∧
    parse_definition "v. to run fast" = ("N/A", "v. to run fast") := by
  decide

/-! ## Claim C10 — inline tag matches word prefixes -/

/-- C10: the inline part-of-speech pattern needs no separator after the
abbreviation, so for any parenthesized definition whose body extends an
abbreviation into a longer word — here the family `"(colloq) n" ++ rest`
with a dot-free, whitespace-free, newline-free remainder — the abbreviation
(`"n"`) overrides the parenthesized group and the truncated remainder of
the word becomes the translation. -/
theorem inline_pos_tag_override (rest : String)
    (hws : ∀ c ∈ rest.data, rustWhitespace c = false)
    (hnl : ∀ c ∈ rest.data, ¬ c = '\n')
    (hdot : rest.data.head? ≠ some '.') :
    parse_definition ("(colloq) n" ++ rest) = ("n", rest) := by
  have hdata : ("(colloq) n" ++ rest).data
      = '(' :: 'c' :: 'o' :: 'l' :: 'l' :: 'o' :: 'q' :: ')' :: ' ' :: 'n' :: rest.data := rfl
  have hparen : rustWhitespace '(' = false := by decide
  have hsp : rustWhitespace ' ' = true := by decide
  have hn : rustWhitespace 'n' = false := by decide
  have htaken : List.takeWhile (fun c => !(c = '\n')) ('n' :: rest.data) = 'n' :: rest.data := by
    refine takeWhile_eq_self _ _ ?_
    intro c hc
    rcases List.mem_cons.mp hc with h | h
    · subst h; decide
    · simp [hnl c h]
  have htrimn : trimChars ('n' :: rest.data) = 'n' :: rest.data := by
    refine trimChars_eq_self _ ?_
    intro c hc
    rcases List.mem_cons.mp hc with h | h
    · subst h; decide
    · exact hws c h
  simp only [parse_definition, parenMatch, hdata]
  simp [List.dropWhile, hparen, splitAtParen, hsp, hn, htaken, posMatch, posAbbrevs,
        dropPrefixCI, List.findSome?, trimS, htrimn]
  constructor
  · simp [List.take]
  · split
    · rename_i t heq
      exact absurd (by simp [heq]) hdot
    · have h1 : List.dropWhile rustWhitespace rest.data = rest.data := dropWhile_ws_eq_self _ hws
      have h2 : List.takeWhile (fun c => !(c = '\n')) rest.data = rest.data := by
        refine takeWhile_eq_self _ _ ?_
        intro c hc
        simp [hnl c hc]
      have h3 := trimChars_eq_self rest.data hws
      simp [h1, h2, h3]

/-- C10 witness: the concrete instance `"(colloq) nothing"` yields part of
speech `"n"` and translation `"othing"`. -/
theorem inline_pos_tag_override_witness :
    (∀ c ∈ ("othing" : String).data, rustWhitespace c = false) ∧
    (∀ c ∈ ("othing" : String).data, ¬ c = '\n') ∧
    ("othing" : String).data.head? ≠ some '.' ∧
    parse_definition "(colloq) nothing" = ("n", "othing") :=
  ⟨by decide, by decide, by decide,
   inline_pos_tag_override "othing" (by decide) (by decide) (by decide)⟩

/-! ## Claim C7 — translation-table row parsing -/

/-- C7: a table row with exactly two cells yields the trimmed first cell as
the word and feeds the trimmed second cell to `parse_definition`; a two-cell
row whose trimmed word or trimmed definition is empty contributes no
`TranslationItem`. -/
theorem translation_row_parsing (dict : String) (row : HtmlNode) (c0 c1 : String)
    (h : tdTexts row = [c0, c1]) :
    (trimS c0 ≠ "" → trimS c1 ≠ "" →
      rowItem dict row =
        some { word := trimS c0, pos := (parse_definition (trimS c1)).1,
               translation := (parse_definition (trimS c1)).2, dictionary := dict }) ∧
    ((trimS c0 = "" ∨ trimS c1 = "") → rowItem dict row = none) := by
  constructor
  · intro h0 h1
    simp [rowItem, h, rowItemCells, h0, h1]
  · intro hempty
    rcases hempty with he | he <;> simp [rowItem, h, rowItemCells, he]

/-- Concrete two-cell row used by the C7 witness. -/
def sampleRow : HtmlNode :=
  .elem "tr" [] [.elem "td" [] [.text " cat "], .elem "td" [] [.text " (n) แมว "]]

/-- C7 witness: the concrete two-cell row produces its trimmed word and
parsed definition. -/
theorem translation_row_parsing_witness :
    tdTexts sampleRow = [" cat ", " (n) แมว "] ∧
    rowItem "Nontri Dictionary" sampleRow =
      some { word := trimS " cat ", pos := (parse_definition (trimS " (n) แมว ")).1,
             translation := (parse_definition (trimS " (n) แมว ")).2,
             dictionary := "Nontri Dictionary" } :=
  ⟨by decide,
   (translation_row_parsing "Nontri Dictionary" sampleRow " cat " " (n) แมว "
      (by decide)).1 (by decide) (by decide)⟩

/-! ## Claim C5 — cancellation terminates the pipeline before OCR -/

/-- C5: when the capture transport reports failure — a non-zero Spectacle
exit status on the KDE path, or a non-zero portal response code otherwise —
`capture_and_ocr` terminates with an error, and its trace contains neither
an OCR invocation nor a network request. -/
theorem capture_cancellation (env : OcrEnv)
    (h : (substrB "KDE" (upperStr env.xdgCurrentDesktop) = true ∧
          env.spectacleExitSuccess = false) ∨
         (substrB "KDE" (upperStr env.xdgCurrentDesktop) = false ∧
          env.portalResponseCode ≠ 0)) :
    (∃ e, (capture_and_ocr env).1 = .error e) ∧
    CaptureEvent.ocrInvoke ∉ (capture_and_ocr env).2 ∧
    CaptureEvent.networkRequest ∉ (capture_and_ocr env).2 := by
  rcases h with ⟨hk, hs⟩ | ⟨hk, hp⟩
  · simp [capture_and_ocr, capture_kde, hk, hs]
  · simp [capture_and_ocr, capture_portal, hk, hp]

/-- C5 witness: a concrete KDE-path cancellation run. -/
theorem capture_cancellation_witness :
    (∃ e, (capture_and_ocr ⟨"KDE", false, 0, none, none, none⟩).1 = .error e) ∧
    CaptureEvent.ocrInvoke ∉ (capture_and_ocr ⟨"KDE", false, 0, none, none, none⟩).2 ∧
    CaptureEvent.networkRequest ∉ (capture_and_ocr ⟨"KDE", false, 0, none, none, none⟩).2 :=
  capture_cancellation _ (Or.inl ⟨by decide, rfl⟩)

/-! ## Claim C6 — the dictionary HTML parse never fails -/

/-- C6: `parse_longdo_html` returns a `LongdoData` value for every input
document, and when no dictionary-heading anchor is followed by a matching
result table the translations list is empty, and likewise for the examples
anchor — the parse degrades to empty collections instead of erring. -/
theorem longdo_parse_total (doc : List HtmlNode)
    (h1 : ∀ bs ∈ bSiblingsList doc, ∀ d ∈ targetDicts,
        substrB d (nodeText bs.1) = true → findResultTable bs.2 = none)
    (h2 : ∀ bs ∈ bSiblingsList doc,
        substrB exampleAnchor (nodeText bs.1) = true → findResultTable bs.2 = none) :
    parse_longdo_html doc = .ok (longdoDataOf doc) ∧
    (longdoDataOf doc).translations = [] ∧
    (longdoDataOf doc).examples = [] := by
  refine ⟨rfl, ?_, ?_⟩
  · show translationsOf doc = []
    refine flatMap_eq_nil _ _ ?_
    intro d hd
    refine flatMap_eq_nil _ _ ?_
    intro bs hbs
    by_cases hc : substrB d (nodeText bs.1) = true
    · simp [hc, h1 bs hbs d hd hc]
    · simp [hc]
  · show examplesOf doc = []
    unfold examplesOf
    rw [findSome?_eq_none]
    intro bs hbs
    by_cases hc : substrB exampleAnchor (nodeText bs.1) = true
    · simp [hc, h2 bs hbs hc]
    · simp [hc]

/-- Concrete anchor-free document used by the C6 witness. -/
def sampleDoc : List HtmlNode := [.text "no dictionaries here"]

/-- C6 witness: on a concrete document without anchors, the parse succeeds
with empty collections. -/
theorem longdo_parse_total_witness :
    parse_longdo_html sampleDoc = .ok (longdoDataOf sampleDoc) ∧
    (longdoDataOf sampleDoc).translations = [] ∧
    (longdoDataOf sampleDoc).examples = [] :=
  longdo_parse_total sampleDoc
    (by intro bs hbs; simp [sampleDoc, bSiblingsList, bSiblings, isTag] at hbs)
    (by intro bs hbs; simp [sampleDoc, bSiblingsList, bSiblings, isTag] at hbs)

/-! ## Claim C8 — machine-translation response parsing -/

/-- C8 counterexample: an item of the first top-level array whose first
element is not a string is silently skipped — the claim demands a parse
error for this malformed field, but the client returns success with the
item contributing nothing. -/
theorem google_parse_counterexample :
    parseGoogleResponse (.arr [.arr [.arr [.num 5]], .null, .str "en"]) = .ok ("", "en") ∧
    ((Json.arr [Json.num 5]).getIdx 0).bind Json.asStr = none :=
  ⟨rfl, rfl⟩

/-- C8 (amended): for a well-formed response the translated text is the
concatenation of the first element of every item of the first top-level
array and the detected source language is the third top-level element; a
parse error is returned exactly when the first top-level element is missing
or not an array, or the third top-level element is missing or not a string.
Items whose own first element is missing or not a string are skipped, not
errors. -/
theorem google_parse_response :
    (∀ (ts : List String) (x : Json) (lang : String) (tail : List Json),
       parseGoogleResponse
           (.arr (.arr (ts.map fun t => .arr [.str t]) :: x :: .str lang :: tail)) =
         .ok (ts.foldl (· ++ ·) "", lang)) ∧
    (∀ j : Json, (∃ e, parseGoogleResponse j = .error e) ↔
       ((j.getIdx 0).bind Json.asArr = none ∨ (j.getIdx 2).bind Json.asStr = none)) := by
  constructor
  · intro ts x lang tail
    have hfold : ∀ (l : List String) (acc : String),
        (l.map fun t => Json.arr [Json.str t]).foldl googleChunk acc =
          l.foldl (· ++ ·) acc := by
      intro l
      induction l with
      | nil => intro acc; rfl
      | cons t ts ih => intro acc; simp [List.foldl, googleChunk, Json.getIdx, Json.asStr, ih]
    simp [parseGoogleResponse, Json.getIdx, Json.asArr, Json.asStr, List.get?, hfold]
  · intro j
    cases h0 : (j.getIdx 0).bind Json.asArr with
    | none => simp [parseGoogleResponse, h0]
    | some l =>
      cases h2 : (j.getIdx 2).bind Json.asStr with
      | none => simp [parseGoogleResponse, h0, h2]
      | some s => simp [parseGoogleResponse, h0, h2]

/-- C8 witness: a concrete well-formed two-chunk response through the
amended theorem. -/
theorem google_parse_response_witness :
    parseGoogleResponse
        (.arr [.arr [.arr [.str "Hello "], .arr [.str "world"]], .null, .str "en"]) =
      .ok ((["Hello ", "world"]).foldl (· ++ ·) "", "en") :=
  google_parse_response.1 ["Hello ", "world"] .null "en" []

end FloatingDict
